import Mathlib

set_option maxRecDepth 100000

/-!
Shallow embedding of the gbcemu binary-ingestion layer.

Byte buffers (C++ `std::vector<unsigned charr>`-like) are modelled as `List Nat`
whose entries are bytes (`< 256`); a C++ `throw std::out_of_range` is modelled
by the `none` alternative of `Option`.
-/

/-- Predicate stating that a list of naturals is a genuine byte buffer:
every entry fits in an unsigned 8-bit byte, as `std::vector<uint8_t>`
guarantees by type in the source. -/
abbrev ByteBuffer (bb : List Nat) : Prop := ∀ x ∈ bb, x < 256

/-- Bounds-checked read of `byte_buffer[i]`: in the total embedding an
out-of-range index takes the error alternative `none`. -/
def vector_at (bb : List Nat) (i : Nat) : Option Nat :=
  if h : i < bb.length then some bb[i] else none

/-- Bounds-checked read of `len` consecutive bytes starting at `start`,
modelling `std::string(&byte_buffer[start], len)`. -/
def slice_bytes (bb : List Nat) (start len : Nat) : Option (List Nat) :=
  if start + len ≤ bb.length then some ((bb.drop start).take len) else none

/-- Modelled from the spec: class `AddressableMemory` lives in
`src/memory/addressable_memory.cc/.h`, which is not present under `src/`.
Per spec section 4.1, `construct(bytes, editable)` takes ownership of an initial
byte sequence, with an `editable` flag gating writes. -/
structure AddressableMemory where
  memory : List Nat
  editable : Bool
deriving DecidableEq, Repr

namespace Util

/-- Modelled from the spec: `Util::combined_char_based_value` lives in
`src/util/util.cc`, which is not present under `src/` (only its tests are).
Per spec section 4.3: both inputs must be ASCII digits (0x30 to 0x39); the
result is `(high - '0') * 10 + (low - '0')` as a single byte; any other input
fails with OutOfRange (here `none`). -/
def combined_char_based_value (high low : Nat) : Option Nat :=
  if 0x30 ≤ high ∧ high ≤ 0x39 ∧ 0x30 ≤ low ∧ low ≤ 0x39 then
    some ((high - 0x30) * 10 + (low - 0x30))
  else
    none

/-- Modelled from the spec: `Util::nthos16_t` lives in `src/util/util.cc`,
which is not present under `src/`. Per spec sections 4.3 and 6, the two-byte
checksum field at 0x14E is stored big-endian on disk and converted to host
order; the `std::memcpy` of the two bytes followed by `nthos16_t` therefore
yields the big-endian value `hi * 256 + lo`. -/
def read_checksum_be (hi lo : Nat) : Nat := 256 * hi + lo

end Util

namespace GBCBinary

/-- Struct `GBCBinary::gbc_binary_headerdata` from `gbc_binary.cc`
(field names kept; the `std::string` title is a byte list here). -/
structure gbc_binary_headerdata where
  title : List Nat
  gameboy_type : Nat
  licencee_new : Nat
  sgb_compatability : Nat
  cartridge_type : Nat
  rom_size : Nat
  ram_size : Nat
  japanese_code : Nat
  licencee_old : Nat
  mask_rom_version : Nat
  complement_check : Nat
  checksum : Nat
deriving DecidableEq, Repr

/-- Constant `nintendo_logo_bytes` from `GBCBinary::valid_nintendo_logo`
(48 reference bytes). -/
def nintendo_logo_bytes : List Nat :=
  [0xCE, 0xED, 0x66, 0x66, 0xCC, 0x0D, 0x00, 0x0B, 0x03,
   0x73, 0x00, 0x83, 0x00, 0x0C, 0x00, 0x0D, 0x00, 0x08,
   0x11, 0x1F, 0x88, 0x89, 0x00, 0x0E, 0xDC, 0xCC, 0x6E,
   0xE6, 0xDD, 0xDD, 0xD9, 0x99, 0xBB, 0xBB, 0x67, 0x63,
   0x6E, 0x0E, 0xEC, 0xCC, 0xDD, 0xDC, 0x99, 0x9F, 0xBB,
   0xB9, 0x33, 0x3E]

def logo_start_addr : Nat := 0x104

def logo_end_addr : Nat := 0x133

/-- `GBCBinary::valid_nintendo_logo` from `gbc_binary.cc`: if
`byte_buffer.size() >= 0x133`, the result of
`std::equal(begin + 0x104, begin + 0x133, nintendo_logo_bytes.begin())`
(an end-exclusive range, hence the 0x2F = 47 buffer bytes 0x104..0x132
against the first 47 reference bytes); otherwise `std::out_of_range`. -/
def valid_nintendo_logo (byte_buffer : List Nat) : Option Bool :=
  if logo_end_addr ≤ byte_buffer.length then
    some (decide ((byte_buffer.drop logo_start_addr).take (logo_end_addr - logo_start_addr)
      = nintendo_logo_bytes.take (logo_end_addr - logo_start_addr)))
  else
    none

def header_end_addr : Nat := 0x14F

def header_check_start_addr : Nat := 0x134

def header_check_end_addr : Nat := 0x14C

def header_checksum_addr : Nat := 0x14D

/-- `GBCBinary::valid_header_checksum` from `gbc_binary.cc`: if
`byte_buffer.size() >= 0x14F`, fold `c = c - byte_buffer[off] - 1` in `uint8_t`
arithmetic over offsets 0x134..0x14C (inclusive) starting from 0 and compare
with the byte at 0x14D; otherwise `std::out_of_range`. The `uint8_t` step
`c - b - 1` is rendered as `(c + 511 - b) % 256`, which agrees with the wrapped
two's-complement value whenever `c` and `b` are bytes. -/
def valid_header_checksum (byte_buffer : List Nat) : Option Bool :=
  if header_end_addr ≤ byte_buffer.length then
    some (decide ((List.range' header_check_start_addr
          (header_check_end_addr + 1 - header_check_start_addr)).foldl
        (fun c off => (c + 511 - byte_buffer.getD off 0) % 256) 0
      = byte_buffer.getD header_checksum_addr 0))
  else
    none

/-- `GBCBinary::extract_header_data` from `gbc_binary.cc`: guard
`byte_buffer.size() >= 0x14F`, then read the title bytes 0x134..0x141
(length 0x142 - 0x134 = 14), the one-byte fields at their `header_flag_addr`
offsets, the two-byte licencee value through
`Util::combined_char_based_value` with the `catch (std::out_of_range)`
branch defaulting to 0 (`Option.getD 0` here), and the two checksum bytes at
0x14E and 0x14F (the `memcpy` of `sizeof(uint16_t)` bytes plus `nthos16_t`).
Every buffer read is through the bounds-checked `vector_at` / `slice_bytes`,
so an out-of-range read takes the `none` branch. -/
def extract_header_data (byte_buffer : List Nat) : Option gbc_binary_headerdata :=
  if header_end_addr ≤ byte_buffer.length then do
    let title ← slice_bytes byte_buffer 0x134 (0x142 - 0x134)
    let gameboy_type ← vector_at byte_buffer 0x143
    let licencee_byte_1 ← vector_at byte_buffer 0x144
    let licencee_byte_2 ← vector_at byte_buffer 0x145
    let licencee_new := (Util.combined_char_based_value licencee_byte_1 licencee_byte_2).getD 0
    let sgb_compatability ← vector_at byte_buffer 0x146
    let cartridge_type ← vector_at byte_buffer 0x147
    let rom_size ← vector_at byte_buffer 0x148
    let ram_size ← vector_at byte_buffer 0x149
    let japanese_code ← vector_at byte_buffer 0x14A
    let licencee_old ← vector_at byte_buffer 0x14B
    let mask_rom_version ← vector_at byte_buffer 0x14C
    let complement_check ← vector_at byte_buffer 0x14D
    let checksum_hi ← vector_at byte_buffer 0x14E
    let checksum_lo ← vector_at byte_buffer 0x14F
    some { title := title, gameboy_type := gameboy_type, licencee_new := licencee_new,
           sgb_compatability := sgb_compatability, cartridge_type := cartridge_type,
           rom_size := rom_size, ram_size := ram_size, japanese_code := japanese_code,
           licencee_old := licencee_old, mask_rom_version := mask_rom_version,
           complement_check := complement_check,
           checksum := Util.read_checksum_be checksum_hi checksum_lo }
  else
    none

end GBCBinary

/-- Class `GBCBinary` from `gbc_binary.cc` (the `AddressableMemory` base with
the parsed header and the two validation booleans). -/
structure GBCBinary where
  mem : AddressableMemory
  binary_header_data : GBCBinary.gbc_binary_headerdata
  header_is_valid : Bool
  has_valid_nintendo_logo : Bool
deriving DecidableEq, Repr

/-- `GBCBinary::parse_bytes` from `gbc_binary.cc`: builds the `GBCBinary`
from `extract_header_data`, `valid_nintendo_logo`, `valid_header_checksum`
and the buffer itself (the base class is constructed with
`AddressableMemory(byte_buffer, false)`); any `std::out_of_range` thrown by a
constructor argument propagates, so the whole parse fails iff any of the
three fails. -/
def GBCBinary.parse_bytes (byte_buffer : List Nat) : Option GBCBinary := do
  let header ← GBCBinary.extract_header_data byte_buffer
  let valid_logo ← GBCBinary.valid_nintendo_logo byte_buffer
  let valid_header ← GBCBinary.valid_header_checksum byte_buffer
  some { mem := { memory := byte_buffer, editable := false },
         binary_header_data := header,
         header_is_valid := valid_header,
         has_valid_nintendo_logo := valid_logo }

/-- Concrete buffer of length 0x134: zeros up to 0x103, the first 47
reference-logo bytes at offsets 0x104..0x132, and the byte 0x00 at
offset 0x133 (where the 48th reference byte 0x3E would have to sit). -/
def logo_bug_input : List Nat :=
  List.replicate 0x104 0 ++ GBCBinary.nintendo_logo_bytes.take 0x2F ++ [0]

/-- Claim C1: the code accepts `logo_bug_input` (length 0x134 >= 0x133) as
having a valid logo even though its 48-byte slice at 0x104 differs from the
reference signature at the last byte — `std::equal` with end iterator
`begin + 0x133` compares only the 47 bytes 0x104..0x132, contradicting both
the claim and the function's own documentation (bytes 0x104 => 0x133, with a
48-byte reference array whose last byte is never read). -/
theorem valid_nintendo_logo_accepts_mismatched_48th_byte :
    GBCBinary.valid_nintendo_logo logo_bug_input = some true ∧
    GBCBinary.logo_end_addr ≤ logo_bug_input.length ∧
    (logo_bug_input.drop 0x104).take 48 ≠ GBCBinary.nintendo_logo_bytes := by
  refine ⟨by decide, by decide, by decide⟩

/-- Claim C3: at the spec's header precondition boundary — a buffer of length
exactly 0x14F — header extraction reads the second checksum byte at offset
0x14F, which is out of bounds (valid indices are 0..0x14E), so the error
branch of the total embedding is reached even though the length precondition
`length >= 0x14F` holds: the code's guard `size >= 0x14F` fails to cover the
`memcpy` of the two bytes 0x14E..0x14F. -/
theorem extract_header_data_reads_out_of_bounds_at_boundary :
    GBCBinary.header_end_addr ≤ (List.replicate 0x14F (0 : Nat)).length ∧
    GBCBinary.extract_header_data (List.replicate 0x14F (0 : Nat)) = none := by
  refine ⟨by decide, by decide⟩

/-- Claim C4: a buffer of length exactly 0x14F satisfies `length >= 0x14F`,
yet `parse_bytes` does not fully succeed: header extraction's read of offset
0x14F is out of bounds (C++ undefined behaviour; the error alternative in this
total embedding), so the claimed contract "parse raises iff length < 0x14F"
is violated by the code at this boundary input. -/
theorem parse_bytes_fails_at_boundary :
    GBCBinary.header_end_addr ≤ (List.replicate 0x14F (0 : Nat)).length ∧
    GBCBinary.parse_bytes (List.replicate 0x14F (0 : Nat)) = none := by
  refine ⟨by decide, by decide⟩

/-- Checksum recurrence exactly as the claim states it, over the integers:
start from 0 and, for each offset 0x134..0x14C inclusive, set
`checksum = (checksum - byte_buffer[offset] - 1) mod 256`. -/
def spec_checksum (bb : List Nat) : Int :=
  (List.range' 0x134 0x19).foldl
    (fun c off => (c - (bb.getD off 0 : Int) - 1) % 256) 0

theorem byteBuffer_getD_lt (bb : List Nat) (hbb : ByteBuffer bb) (i : Nat) :
    bb.getD i 0 < 256 := by
  induction bb generalizing i with
  | nil => simp [List.getD]
  | cons a t ih =>
    cases i with
    | zero => exact hbb a (by simp)
    | succ n =>
      rw [List.getD_cons_succ]
      exact ih (fun x hx => hbb x (by simp [hx])) n

theorem checksum_step_eq (c b : Nat) (hc : c < 256) (hb : b < 256) :
    (((c + 511 - b) % 256 : Nat) : Int) = ((c : Int) - (b : Int) - 1) % 256 := by
  omega

theorem checksum_fold_eq (bb : List Nat) (hbb : ByteBuffer bb) (offs : List Nat) :
    ∀ c : Nat, c < 256 →
      ((offs.foldl (fun c off => (c + 511 - bb.getD off 0) % 256) c : Nat) : Int)
        = offs.foldl (fun c off => (c - (bb.getD off 0 : Int) - 1) % 256) (c : Int) := by
  induction offs with
  | nil => intro c hc; rfl
  | cons off rest ih =>
    intro c hc
    rw [List.foldl_cons, List.foldl_cons]
    rw [ih ((c + 511 - bb.getD off 0) % 256) (Nat.mod_lt _ (by omega))]
    rw [checksum_step_eq c (bb.getD off 0) hc (byteBuffer_getD_lt bb hbb off)]

/-- Claim C2: for every byte buffer shorter than 0x14F the checksum check
fails with OutOfRange (`none`), and for every byte buffer of length at least
0x14F it deterministically returns exactly the comparison between the
spec's modular-sum (computed over the integers, offsets 0x134..0x14C,
`(c - byte - 1) mod 256` from 0) and the byte stored at offset 0x14D. -/
theorem valid_header_checksum_matches_spec (bb : List Nat) (hbb : ByteBuffer bb) :
    (bb.length < 0x14F → GBCBinary.valid_header_checksum bb = none) ∧
    (0x14F ≤ bb.length → GBCBinary.valid_header_checksum bb
        = some (decide (spec_checksum bb = (bb.getD 0x14D 0 : Int)))) := by
  constructor
  · intro hshort
    unfold GBCBinary.valid_header_checksum
    rw [if_neg]
    show ¬((0x14F : Nat) ≤ bb.length)
    omega
  · intro hlong
    unfold GBCBinary.valid_header_checksum spec_checksum GBCBinary.header_end_addr
      GBCBinary.header_check_start_addr GBCBinary.header_check_end_addr
      GBCBinary.header_checksum_addr
    rw [if_pos (by omega : (0x14F : Nat) ≤ bb.length)]
    congr 1
    rw [decide_eq_decide]
    rw [show (0x14C + 1 - 0x134 : Nat) = 0x19 by norm_num]
    have hfold := checksum_fold_eq bb hbb (List.range' 0x134 0x19) 0 (by omega)
    rw [Nat.cast_zero] at hfold
    rw [← hfold]
    exact Nat.cast_inj.symm

/-- Witness for claim C2 at the concrete all-zero buffer of length 0x150. -/
theorem valid_header_checksum_matches_spec_witness :
    GBCBinary.valid_header_checksum (List.replicate 0x150 (0 : Nat))
      = some (decide (spec_checksum (List.replicate 0x150 (0 : Nat))
          = ((List.replicate 0x150 (0 : Nat)).getD 0x14D 0 : Int))) :=
  (valid_header_checksum_matches_spec (List.replicate 0x150 (0 : Nat))
    (by decide)).2 (by decide)

theorem vector_at_eq (bb : List Nat) (k : Nat) (hk : k < bb.length) :
    vector_at bb k = some (bb.getD k 0) := by
  unfold vector_at
  rw [dif_pos hk]
  rw [List.getD_eq_getElem?_getD, List.getElem?_eq_getElem hk]
  rfl

/-- Refinement lemma: whenever the buffer really contains the whole header
region including both checksum bytes (length at least 0x150), extraction
succeeds and produces exactly the fields read at the documented offsets. -/
theorem extract_header_data_eq (bb : List Nat) (h : 0x150 ≤ bb.length) :
    GBCBinary.extract_header_data bb = some
      { title := (bb.drop 0x134).take 14,
        gameboy_type := bb.getD 0x143 0,
        licencee_new := (Util.combined_char_based_value (bb.getD 0x144 0) (bb.getD 0x145 0)).getD 0,
        sgb_compatability := bb.getD 0x146 0,
        cartridge_type := bb.getD 0x147 0,
        rom_size := bb.getD 0x148 0,
        ram_size := bb.getD 0x149 0,
        japanese_code := bb.getD 0x14A 0,
        licencee_old := bb.getD 0x14B 0,
        mask_rom_version := bb.getD 0x14C 0,
        complement_check := bb.getD 0x14D 0,
        checksum := Util.read_checksum_be (bb.getD 0x14E 0) (bb.getD 0x14F 0) } := by
  unfold GBCBinary.extract_header_data
  rw [if_pos (by show (0x14F : Nat) ≤ bb.length; omega)]
  rw [show slice_bytes bb 0x134 (0x142 - 0x134) = some ((bb.drop 0x134).take 14) by
        unfold slice_bytes; rw [if_pos (by omega)]]
  rw [vector_at_eq bb 0x143 (by omega), vector_at_eq bb 0x144 (by omega),
      vector_at_eq bb 0x145 (by omega), vector_at_eq bb 0x146 (by omega),
      vector_at_eq bb 0x147 (by omega), vector_at_eq bb 0x148 (by omega),
      vector_at_eq bb 0x149 (by omega), vector_at_eq bb 0x14A (by omega),
      vector_at_eq bb 0x14B (by omega), vector_at_eq bb 0x14C (by omega),
      vector_at_eq bb 0x14D (by omega), vector_at_eq bb 0x14E (by omega),
      vector_at_eq bb 0x14F (by omega)]
  rfl

/-- Claim C5 counterexample: the claim's precondition `length >= 0x14F` is met
by the all-zero buffer of length exactly 0x14F, yet no header is extracted at
all (the read of the second checksum byte at offset 0x14F is out of bounds),
so the claimed field mapping cannot hold there. -/
theorem extract_header_fields_boundary_failure :
    0x14F ≤ (List.replicate 0x14F (0 : Nat)).length ∧
    GBCBinary.extract_header_data (List.replicate 0x14F (0 : Nat)) = none := by
  refine ⟨by decide, by decide⟩

/-- Claim C5 (amended precondition `length >= 0x150`): the extracted title is
the raw 14 bytes at 0x134 with no trimming, every one-byte field is the buffer
byte at its documented offset, and the 16-bit checksum is the big-endian value
of the two bytes at 0x14E..0x14F. -/
theorem extract_header_fields (bb : List Nat) (h : 0x150 ≤ bb.length) :
    ∃ hd, GBCBinary.extract_header_data bb = some hd ∧
      hd.title = (bb.drop 0x134).take 14 ∧
      hd.gameboy_type = bb.getD 0x143 0 ∧
      hd.sgb_compatability = bb.getD 0x146 0 ∧
      hd.cartridge_type = bb.getD 0x147 0 ∧
      hd.rom_size = bb.getD 0x148 0 ∧
      hd.ram_size = bb.getD 0x149 0 ∧
      hd.japanese_code = bb.getD 0x14A 0 ∧
      hd.licencee_old = bb.getD 0x14B 0 ∧
      hd.mask_rom_version = bb.getD 0x14C 0 ∧
      hd.complement_check = bb.getD 0x14D 0 ∧
      hd.checksum = 256 * bb.getD 0x14E 0 + bb.getD 0x14F 0 :=
  ⟨_, extract_header_data_eq bb h, rfl, rfl, rfl, rfl, rfl, rfl, rfl, rfl, rfl, rfl, rfl⟩

/-- Witness for claim C5 at the concrete all-zero buffer of length 0x150. -/
theorem extract_header_fields_witness :
    0x150 ≤ (List.replicate 0x150 (0 : Nat)).length ∧
    (∃ hd, GBCBinary.extract_header_data (List.replicate 0x150 (0 : Nat)) = some hd ∧
      hd.title = ((List.replicate 0x150 (0 : Nat)).drop 0x134).take 14 ∧
      hd.gameboy_type = (List.replicate 0x150 (0 : Nat)).getD 0x143 0 ∧
      hd.sgb_compatability = (List.replicate 0x150 (0 : Nat)).getD 0x146 0 ∧
      hd.cartridge_type = (List.replicate 0x150 (0 : Nat)).getD 0x147 0 ∧
      hd.rom_size = (List.replicate 0x150 (0 : Nat)).getD 0x148 0 ∧
      hd.ram_size = (List.replicate 0x150 (0 : Nat)).getD 0x149 0 ∧
      hd.japanese_code = (List.replicate 0x150 (0 : Nat)).getD 0x14A 0 ∧
      hd.licencee_old = (List.replicate 0x150 (0 : Nat)).getD 0x14B 0 ∧
      hd.mask_rom_version = (List.replicate 0x150 (0 : Nat)).getD 0x14C 0 ∧
      hd.complement_check = (List.replicate 0x150 (0 : Nat)).getD 0x14D 0 ∧
      hd.checksum = 256 * (List.replicate 0x150 (0 : Nat)).getD 0x14E 0
          + (List.replicate 0x150 (0 : Nat)).getD 0x14F 0) :=
  ⟨by decide, extract_header_fields (List.replicate 0x150 (0 : Nat)) (by decide)⟩

/-- Concrete buffer of length 0x14F whose licencee bytes at 0x144..0x145 are
the ASCII digits '1' and '0'. -/
def licencee_boundary_input : List Nat :=
  List.replicate 0x144 0 ++ [0x31, 0x30] ++ List.replicate 9 0

/-- Claim C6 counterexample: this buffer meets the claim's precondition
`length >= 0x14F` and has ASCII digits at 0x144..0x145, yet header extraction
does not succeed at all (out-of-bounds read of offset 0x14F), so neither
branch of the claimed tolerance behaviour is realised. -/
theorem extract_licencee_boundary_failure :
    0x14F ≤ licencee_boundary_input.length ∧
    GBCBinary.extract_header_data licencee_boundary_input = none := by
  refine ⟨by decide, by decide⟩

/-- Claim C6 (amended precondition `length >= 0x150`): extraction succeeds,
and the licencee_new field is the two-ASCII-digit decimal value when both
bytes at 0x144..0x145 are digits, and 0 otherwise (the swallowed OutOfRange
of `Util::combined_char_based_value`). -/
theorem extract_licencee_new_tolerance (bb : List Nat) (h : 0x150 ≤ bb.length) :
    ∃ hd, GBCBinary.extract_header_data bb = some hd ∧
      ((0x30 ≤ bb.getD 0x144 0 ∧ bb.getD 0x144 0 ≤ 0x39 ∧
        0x30 ≤ bb.getD 0x145 0 ∧ bb.getD 0x145 0 ≤ 0x39) →
        hd.licencee_new = (bb.getD 0x144 0 - 0x30) * 10 + (bb.getD 0x145 0 - 0x30)) ∧
      (¬(0x30 ≤ bb.getD 0x144 0 ∧ bb.getD 0x144 0 ≤ 0x39 ∧
         0x30 ≤ bb.getD 0x145 0 ∧ bb.getD 0x145 0 ≤ 0x39) →
        hd.licencee_new = 0) := by
  refine ⟨_, extract_header_data_eq bb h, ?_, ?_⟩
  · intro hdig
    show (Util.combined_char_based_value (bb.getD 0x144 0) (bb.getD 0x145 0)).getD 0 = _
    unfold Util.combined_char_based_value
    rw [if_pos hdig]
    rfl
  · intro hdig
    show (Util.combined_char_based_value (bb.getD 0x144 0) (bb.getD 0x145 0)).getD 0 = 0
    unfold Util.combined_char_based_value
    rw [if_neg hdig]
    rfl

/-- Concrete buffer of length 0x150 whose licencee bytes at 0x144..0x145 are
the ASCII digits '1' and '0'. -/
def licencee_digit_input : List Nat :=
  List.replicate 0x144 0 ++ [0x31, 0x30] ++ List.replicate 10 0

/-- Witness for claim C6 at a concrete buffer with digit licencee bytes. -/
theorem extract_licencee_new_tolerance_witness :
    0x150 ≤ licencee_digit_input.length ∧
    (∃ hd, GBCBinary.extract_header_data licencee_digit_input = some hd ∧
      ((0x30 ≤ licencee_digit_input.getD 0x144 0 ∧ licencee_digit_input.getD 0x144 0 ≤ 0x39 ∧
        0x30 ≤ licencee_digit_input.getD 0x145 0 ∧ licencee_digit_input.getD 0x145 0 ≤ 0x39) →
        hd.licencee_new = (licencee_digit_input.getD 0x144 0 - 0x30) * 10
          + (licencee_digit_input.getD 0x145 0 - 0x30)) ∧
      (¬(0x30 ≤ licencee_digit_input.getD 0x144 0 ∧ licencee_digit_input.getD 0x144 0 ≤ 0x39 ∧
         0x30 ≤ licencee_digit_input.getD 0x145 0 ∧ licencee_digit_input.getD 0x145 0 ≤ 0x39) →
        hd.licencee_new = 0)) :=
  ⟨by decide, extract_licencee_new_tolerance licencee_digit_input (by decide)⟩

/-- Class `Register` from `register.cc`: a specialisation of
`AddressableMemory` (composition here, per the modelled base). -/
structure Register where
  mem : AddressableMemory
deriving DecidableEq, Repr

/-- `Register::Register()` from `register.cc`:
`AddressableMemory(std::vector<uint8_t>(2, 0), false)` — two zero bytes and
`false` passed as the constructor's second (editable) argument. -/
def Register.init : Register :=
  { mem := { memory := List.replicate 2 0, editable := false } }

/-- `Register::get_bit` from `register.cc`: guard
`byte_index < memory_.size() && bit_index <= 0x07`, then
`static_cast<bool>((memory_[byte_index] >> bit_index) & 0x01)`; otherwise
`std::out_of_range`. -/
def Register.get_bit (r : Register) (byte_index bit_index : Nat) : Option Bool :=
  if byte_index < r.mem.memory.length ∧ bit_index ≤ 0x07 then
    some (((r.mem.memory.getD byte_index 0 >>> bit_index) &&& 0x01) != 0)
  else
    none

/-- `Register::set_bit` from `register.cc`: same guard; on `true` the byte is
OR-ed with `1 << bit_index`, on `false` it is AND-ed with `~(1 << bit_index)`
(whose value, truncated by the `uint8_t` store with `bit_index <= 7`, is the
8-bit mask `0xFF ^^^ (1 <<< bit_index)`); otherwise `std::out_of_range` is
thrown before any write, so the state component is returned unchanged with the
`none` result. -/
def Register.set_bit (r : Register) (byte_index bit_index : Nat) (bit_value : Bool) :
    Register × Option Unit :=
  if byte_index < r.mem.memory.length ∧ bit_index ≤ 0x07 then
    (Register.mk (AddressableMemory.mk
        (r.mem.memory.set byte_index
          (if bit_value then r.mem.memory.getD byte_index 0 ||| (1 <<< bit_index)
           else r.mem.memory.getD byte_index 0 &&& (0xFF ^^^ (1 <<< bit_index))))
        r.mem.editable),
     some ())
  else
    (r, none)

theorem land_one_ne_zero (n i : Nat) : (((n >>> i) &&& 1) != 0) = n.testBit i := by
  rw [Nat.and_comm]
  rfl

theorem or_bit_self (old i : Nat) : (old ||| (1 <<< i)).testBit i = true := by
  rw [Nat.one_shiftLeft, Nat.testBit_or, Nat.testBit_two_pow_self, Bool.or_true]

theorem and_mask_bit_self (old i : Nat) (hi : i ≤ 7) :
    (old &&& (0xFF ^^^ (1 <<< i))).testBit i = false := by
  rw [Nat.one_shiftLeft, Nat.testBit_and, Nat.testBit_xor,
      show (0xFF : Nat) = 2 ^ 8 - 1 by norm_num, Nat.testBit_two_pow_sub_one,
      Nat.testBit_two_pow_self]
  have h8 : i < 8 := by omega
  simp [h8]

theorem or_bit_other (old i j : Nat) (hij : j ≠ i) :
    (old ||| (1 <<< i)).testBit j = old.testBit j := by
  rw [Nat.one_shiftLeft, Nat.testBit_or,
      Nat.testBit_two_pow_of_ne (fun h => hij h.symm), Bool.or_false]

theorem and_mask_bit_other (old i j : Nat) (hj : j ≤ 7) (hij : j ≠ i) :
    (old &&& (0xFF ^^^ (1 <<< i))).testBit j = old.testBit j := by
  rw [Nat.one_shiftLeft, Nat.testBit_and, Nat.testBit_xor,
      show (0xFF : Nat) = 2 ^ 8 - 1 by norm_num, Nat.testBit_two_pow_sub_one,
      Nat.testBit_two_pow_of_ne (fun h => hij h.symm)]
  have h8 : j < 8 := by omega
  simp [h8]

theorem getD_set_self (l : List Nat) (i a : Nat) (h : i < l.length) :
    (l.set i a).getD i 0 = a := by
  rw [List.getD_eq_getElem?_getD, List.getElem?_eq_getElem (by simpa using h)]
  simp

theorem getD_set_other (l : List Nat) (i k a : Nat) (h : i ≠ k) :
    (l.set i a).getD k 0 = l.getD k 0 := by
  rw [List.getD_eq_getElem?_getD, List.getD_eq_getElem?_getD, List.getElem?_set_ne h]

/-- Claim C7: on a 2-byte register, for in-range coordinates
(`byte_index ∈ {0,1}`, `bit_index ∈ [0,7]`) `set_bit` succeeds and a
following `get_bit` at the same coordinates returns the value just set
(bit 0 = least significant); for `byte_index >= 2` or `bit_index > 7` both
operations fail with OutOfRange (`none`) and `set_bit` returns the register
state unchanged (the C++ code throws before any write). -/
theorem register_set_get_round_trip (r : Register) (byte_index bit_index : Nat) (v : Bool)
    (hlen : r.mem.memory.length = 2) :
    (byte_index < 2 → bit_index ≤ 7 →
      ((r.set_bit byte_index bit_index v).1).get_bit byte_index bit_index = some v ∧
      (r.set_bit byte_index bit_index v).2 = some ()) ∧
    (2 ≤ byte_index ∨ 7 < bit_index →
      r.get_bit byte_index bit_index = none ∧
      r.set_bit byte_index bit_index v = (r, none)) := by
  constructor
  · intro hb hi
    have hg : byte_index < r.mem.memory.length ∧ bit_index ≤ 0x07 :=
      And.intro (by omega) hi
    unfold Register.set_bit
    rw [if_pos hg]
    refine ⟨?_, rfl⟩
    unfold Register.get_bit
    rw [if_pos (And.intro (by rw [List.length_set]; exact hg.1) hi)]
    rw [getD_set_self _ _ _ hg.1]
    cases v with
    | true => rw [if_pos rfl, land_one_ne_zero, or_bit_self]
    | false => rw [if_neg Bool.false_ne_true, land_one_ne_zero, and_mask_bit_self _ _ hi]
  · intro hout
    have hg : ¬(byte_index < r.mem.memory.length ∧ bit_index ≤ 0x07) := by omega
    constructor
    · unfold Register.get_bit
      rw [if_neg hg]
    · unfold Register.set_bit
      rw [if_neg hg]

/-- Witness for claim C7: on a fresh register, setting bit 3 of byte 0 to
true and reading it back yields true; and coordinates (2, 3) are rejected. -/
theorem register_set_get_round_trip_witness :
    ((Register.init.set_bit 0 3 true).1).get_bit 0 3 = some true ∧
    Register.init.get_bit 2 3 = none := by
  constructor
  · exact ((register_set_get_round_trip Register.init 0 3 true (by decide)).1
      (by decide) (by decide)).1
  · exact ((register_set_get_round_trip Register.init 2 3 true (by decide)).2
      (by decide)).1

/-- Claim C10: an in-range `set_bit` changes at most the addressed bit:
every other bit of the addressed byte and every bit of the other byte of the
2-byte register read back unchanged. -/
theorem register_set_bit_frame (r : Register) (byte_index bit_index : Nat) (v : Bool)
    (hlen : r.mem.memory.length = 2) (hb : byte_index < 2) (hi : bit_index ≤ 7) :
    (∀ j, j ≤ 7 → j ≠ bit_index →
      ((r.set_bit byte_index bit_index v).1).get_bit byte_index j
        = r.get_bit byte_index j) ∧
    (∀ k, k < 2 → k ≠ byte_index → ∀ j, j ≤ 7 →
      ((r.set_bit byte_index bit_index v).1).get_bit k j = r.get_bit k j) := by
  have hg : byte_index < r.mem.memory.length ∧ bit_index ≤ 0x07 :=
    And.intro (by omega) hi
  constructor
  · intro j hj hjne
    unfold Register.set_bit
    rw [if_pos hg]
    unfold Register.get_bit
    rw [if_pos (And.intro (by rw [List.length_set]; exact hg.1) hj)]
    rw [if_pos (And.intro hg.1 hj)]
    rw [getD_set_self _ _ _ hg.1]
    cases v with
    | true =>
      rw [if_pos rfl, land_one_ne_zero, land_one_ne_zero, or_bit_other _ _ _ hjne]
    | false =>
      rw [if_neg Bool.false_ne_true, land_one_ne_zero, land_one_ne_zero,
          and_mask_bit_other _ _ _ hj hjne]
  · intro k hk hkne j hj
    unfold Register.set_bit
    rw [if_pos hg]
    unfold Register.get_bit
    rw [if_pos (And.intro (by rw [List.length_set]; omega) hj)]
    rw [if_pos (And.intro (by omega) hj)]
    rw [getD_set_other _ _ _ _ (fun h => hkne h.symm)]

/-- Witness for claim C10: setting bit 3 of byte 0 on a fresh register leaves
bit 5 of byte 0 and bit 3 of byte 1 unchanged. -/
theorem register_set_bit_frame_witness :
    ((Register.init.set_bit 0 3 true).1).get_bit 0 5 = Register.init.get_bit 0 5 ∧
    ((Register.init.set_bit 0 3 true).1).get_bit 1 3 = Register.init.get_bit 1 3 := by
  constructor
  · exact (register_set_bit_frame Register.init 0 3 true (by decide) (by decide)
      (by decide)).1 5 (by decide) (by decide)
  · exact (register_set_bit_frame Register.init 0 3 true (by decide) (by decide)
      (by decide)).2 1 (by decide) (by decide) 3 (by decide)

/-- Claim C8 counterexample: a freshly constructed Register does NOT have its
editable flag set to true — `Register::Register()` passes `false` as the
second (editable) argument of `AddressableMemory(std::vector<uint8_t>(2, 0),
false)`, so the claimed always-true editable invariant fails already at
construction. -/
theorem register_not_constructed_editable :
    ¬ (Register.init.mem.editable = true) := by
  decide

/-- Claim C8 (amended): every Register is constructed over an
AddressableByteSpace of exactly 2 bytes whose editable flag is false, and the
flag is never changed by any Register operation (`get_bit` reads only;
`set_bit` copies the flag through unchanged on both branches). -/
theorem register_editable_flag_invariant :
    Register.init.mem.memory.length = 2 ∧
    Register.init.mem.editable = false ∧
    (∀ (r : Register) (byte_index bit_index : Nat) (v : Bool),
      ((r.set_bit byte_index bit_index v).1).mem.editable = r.mem.editable) := by
  refine ⟨rfl, rfl, ?_⟩
  intro r byte_index bit_index v
  unfold Register.set_bit
  by_cases hg : byte_index < r.mem.memory.length ∧ bit_index ≤ 0x07
  · rw [if_pos hg]
  · rw [if_neg hg]

/-- Claim C9: `combined_char_based_value` returns the two-ASCII-digit decimal
value `(high - '0') * 10 + (low - '0')` when both inputs are in 0x30..0x39,
and fails with OutOfRange (`none`) when either input is outside that range —
matching the unit tests (('1','0') gives 10, ('0','9') gives 9, 0x29 input
throws). -/
theorem combined_char_based_value_contract (high low : Nat) :
    ((0x30 ≤ high ∧ high ≤ 0x39 ∧ 0x30 ≤ low ∧ low ≤ 0x39) →
      Util.combined_char_based_value high low
        = some ((high - 0x30) * 10 + (low - 0x30))) ∧
    (¬(0x30 ≤ high ∧ high ≤ 0x39 ∧ 0x30 ≤ low ∧ low ≤ 0x39) →
      Util.combined_char_based_value high low = none) := by
  constructor
  · intro hdig
    unfold Util.combined_char_based_value
    rw [if_pos hdig]
  · intro hdig
    unfold Util.combined_char_based_value
    rw [if_neg hdig]

/-- Witness for claim C9: the unit-test vectors
`combined_char_based_value('1','0') == 10`,
`combined_char_based_value('0','9') == 9`, and the throwing case 0x29. -/
theorem combined_char_based_value_contract_witness :
    Util.combined_char_based_value 0x31 0x30 = some 10 ∧
    Util.combined_char_based_value 0x30 0x39 = some 9 ∧
    Util.combined_char_based_value 0x29 0x30 = none := by
  refine ⟨?_, ?_, ?_⟩
  · exact (combined_char_based_value_contract 0x31 0x30).1 (by decide)
  · exact (combined_char_based_value_contract 0x30 0x39).1 (by decide)
  · exact (combined_char_based_value_contract 0x29 0x30).2 (by decide)
